import Mathlib

/-!
Verification of the Autonomous Parking Assistant.

Shallow embedding of `ParkingUtils.cpp`:
* `checkSafetyE` embeds the C++ `checkSafety`, with the thrown
  `UnsafeParkingException` modelled as `Except.error`;
* `classify` is the spec's re-architected total classifier (§4.1 of the
  design document), returning the status as data;
* `sessionStepE` embeds one iteration of `parkingAssistantLoop`
  (the try/catch structure included); `sessionStep` is the data-consuming
  variant the spec describes; `runSession` folds a list of readings;
* `requiredSpace`, `scanSpaces`, `findParkingSpace` embed the space finder.

Sensor distances are C++ doubles compared against the decimal constants
0.1, 0.3, 0.5; they are modelled as rationals, where those constants are
exact. The constants are written with `mkRat` so that they evaluate by
kernel reduction; lemmas below restate them as the familiar fractions.
-/

deriving instance DecidableEq for Except

/-- The collision threshold 0.1 m (`<= 0.1` throws in `checkSafety`). -/
def collisionMax : ℚ := mkRat 1 10

/-- The proximity threshold 0.3 m (`< 0.3` marks a side as too close). -/
def closeMax : ℚ := mkRat 3 10

/-- The upper bound 0.5 m of the perfect-parking band [0.3, 0.5]. -/
def perfectMax : ℚ := mkRat 5 10

/-- The reading of the three distance sensors (struct `SensorData`). -/
structure SensorData where
  left : ℚ
  center : ℚ
  right : ℚ
deriving DecidableEq

/-- A sensor side, as named by `checkSafety` when it reports proximity. -/
inductive Side where
  | Left
  | Center
  | Right
deriving DecidableEq

/-- The side's label as pushed into `closeSides` in `checkSafety`. -/
def Side.name : Side → String
  | .Left => "LEFT"
  | .Center => "CENTER"
  | .Right => "RIGHT"

/-- The distance the reading holds for a given side. -/
def SensorData.dist (s : SensorData) : Side → ℚ
  | .Left => s.left
  | .Center => s.center
  | .Right => s.right

/-- The list of sides closer than 0.3 m, in the order the C++ code pushes
them: LEFT, then CENTER, then RIGHT (ParkingUtils.cpp lines 106-108). -/
def closeSides (s : SensorData) : List Side :=
  (if s.left < closeMax then [Side.Left] else []) ++
  (if s.center < closeMax then [Side.Center] else []) ++
  (if s.right < closeMax then [Side.Right] else [])

/-- Joins the close sides with `" + "`, as the rendering loop in
`checkSafety` does (ParkingUtils.cpp lines 112-116). -/
def sideListString : List Side → String
  | [] => ""
  | [d] => d.name
  | d :: rest => d.name ++ " + " ++ sideListString rest

/-- The message of the `UnsafeParkingException` thrown on collision. -/
def collisionMsg : String := "🚨 COLLISION! STOP IMMEDIATELY!"

/-- Embedding of C++ `checkSafety` (ParkingUtils.cpp lines 99-128).
The throw of `UnsafeParkingException` is modelled as `Except.error`;
the returned status strings are kept verbatim. -/
def checkSafetyE (s : SensorData) : Except String String :=
  if s.center ≤ collisionMax ∨ s.left ≤ collisionMax ∨ s.right ≤ collisionMax then
    Except.error collisionMsg
  else if closeSides s ≠ [] then
    Except.ok ("TOO CLOSE ⚠️ (" ++ sideListString (closeSides s) ++ ")")
  else if s.center ≥ closeMax ∧ s.center ≤ perfectMax ∧
          s.left ≥ closeMax ∧ s.left ≤ perfectMax ∧
          s.right ≥ closeMax ∧ s.right ≤ perfectMax then
    Except.ok ("Perfectly Parked ✅")
  else
    Except.ok ("SAFE")

/-- The closed set of safety statuses of the spec's data model. -/
inductive SafetyStatus where
  | Collision
  | TooClose (sides : List Side)
  | PerfectlyParked
  | Safe
deriving DecidableEq

/-- The spec's re-architected classifier (§4.1 `classify`): the same
threshold logic as `checkSafety`, with collision returned as a status
variant instead of being thrown, and the too-close sides collected as
exactly the sides below 0.3 in the fixed order Left, Center, Right. -/
def classify (s : SensorData) : SafetyStatus :=
  if s.left ≤ collisionMax ∨ s.center ≤ collisionMax ∨ s.right ≤ collisionMax then
    .Collision
  else if s.left < closeMax ∨ s.center < closeMax ∨ s.right < closeMax then
    .TooClose ([Side.Left, Side.Center, Side.Right].filter
      (fun d => s.dist d < closeMax))
  else if s.left ≥ closeMax ∧ s.left ≤ perfectMax ∧
          s.center ≥ closeMax ∧ s.center ≤ perfectMax ∧
          s.right ≥ closeMax ∧ s.right ≤ perfectMax then
    .PerfectlyParked
  else
    .Safe

/-- The status string the loop records for each variant: the string
`checkSafety` returns, and `"COLLISION!"` for the caught exception
(ParkingUtils.cpp line 376). -/
def renderStatus : SafetyStatus → String
  | .Collision => "COLLISION!"
  | .TooClose sides => "TOO CLOSE ⚠️ (" ++ sideListString sides ++ ")"
  | .PerfectlyParked => "Perfectly Parked ✅"
  | .Safe => "SAFE"

/-- Whether `needle` occurs as a contiguous run inside `hay`, over the
underlying character lists; embeds the C++
`status.find("Perfectly Parked") != string::npos` test. -/
def containsSub (needle : List Char) : List Char → Bool
  | [] => needle.isEmpty
  | c :: t => needle.isPrefixOf (c :: t) || containsSub needle t

/-- The loop's perfect-parking test on a returned status string
(ParkingUtils.cpp line 360). -/
def containsPerfect (status : String) : Bool :=
  containsSub ("Perfectly Parked".data) status.data

/-- The synthetic opposite-movement message recorded when all three
sensors read below 0.3 m (ParkingUtils.cpp lines 340-346). -/
def oppositeMsg (reverseMode : Bool) : String :=
  if reverseMode then
    "Opposite Movement: REVERSE mode sensors close → Move FORWARD"
  else
    "Opposite Movement: FORWARD mode sensors close → Move BACKWARD"

/-- The states of the parking session: the loop is `Running` until it
breaks on perfect parking (`StoppedPerfect`) or on the caught collision
exception (`StoppedCollision`). -/
inductive SessionState where
  | Running
  | StoppedPerfect
  | StoppedCollision
deriving DecidableEq

/-- The mutable state of `parkingAssistantLoop`: the two history vectors
(`history`, `statusHistory`), the `collisionOccurred` flag, and the
control state of the loop. -/
structure Session where
  state : SessionState
  history : List SensorData
  statusHistory : List String
  collisionOccurred : Bool
deriving DecidableEq

/-- The state at the top of `parkingAssistantLoop`: empty histories, no
collision, loop running. -/
def initialSession : Session :=
  { state := .Running, history := [], statusHistory := [],
    collisionOccurred := false }

/-- Embedding of one iteration of the `while (true)` loop of
`parkingAssistantLoop` (ParkingUtils.cpp lines 327-382) on an accepted
reading `s`. The opposite-movement check precedes the try/catch;
`checkSafetyE`'s `Except.error` is the caught exception, handled as at
lines 372-379; `continue` keeps the state `Running` and `break` moves to
a stopped state. Once stopped, the loop has exited and further readings
leave the session unchanged. -/
def sessionStepE (reverseMode : Bool) (st : Session) (s : SensorData) : Session :=
  match st.state with
  | .Running =>
    if s.left < closeMax ∧ s.center < closeMax ∧ s.right < closeMax then
      { st with history := st.history ++ [s],
                statusHistory := st.statusHistory ++ [oppositeMsg reverseMode] }
    else
      match checkSafetyE s with
      | .error _ =>
        { state := .StoppedCollision, history := st.history ++ [s],
          statusHistory := st.statusHistory ++ ["COLLISION!"],
          collisionOccurred := true }
      | .ok status =>
        if containsPerfect status then
          { st with state := .StoppedPerfect,
                    history := st.history ++ [s],
                    statusHistory := st.statusHistory ++ [status] }
        else
          { st with history := st.history ++ [s],
                    statusHistory := st.statusHistory ++ [status] }
  | _ => st

/-- The spec's variant of the transition function (§4.2): identical to
`sessionStepE` except that it consumes the status of the total `classify`
as ordinary data, with no exception path. -/
def sessionStep (reverseMode : Bool) (st : Session) (s : SensorData) : Session :=
  match st.state with
  | .Running =>
    if s.left < closeMax ∧ s.center < closeMax ∧ s.right < closeMax then
      { st with history := st.history ++ [s],
                statusHistory := st.statusHistory ++ [oppositeMsg reverseMode] }
    else
      match classify s with
      | .Collision =>
        { state := .StoppedCollision, history := st.history ++ [s],
          statusHistory := st.statusHistory ++ ["COLLISION!"],
          collisionOccurred := true }
      | status =>
        if status = .PerfectlyParked then
          { st with state := .StoppedPerfect,
                    history := st.history ++ [s],
                    statusHistory := st.statusHistory ++ [renderStatus status] }
        else
          { st with history := st.history ++ [s],
                    statusHistory := st.statusHistory ++ [renderStatus status] }
  | _ => st

/-- A whole parking session over a supplied sequence of validated
readings, starting from `initialSession`. -/
def runSession (reverseMode : Bool) (readings : List SensorData) : Session :=
  readings.foldl (sessionStepE reverseMode) initialSession

/-- Embedding of C++ `requiredSpace` (ParkingUtils.cpp lines 194-196). -/
def requiredSpace (parallel : Bool) (carLength carWidth : ℚ) : ℚ :=
  if parallel then carLength + 1 else carWidth + mkRat 1 2

/-- The scanning loop of `findParkingSpace` (ParkingUtils.cpp lines
252-261): walk the entered sizes in order and return true at the first
one at least `required`; false when they run out. -/
def scanSpaces (required : ℚ) : List ℚ → Bool
  | [] => false
  | space :: rest => if space ≥ required then true else scanSpaces required rest

/-- Embedding of C++ `findParkingSpace` (ParkingUtils.cpp lines 229-262):
the validated count `numSpaces` and the sizes the user would enter are
passed in; a zero or negative count returns false before any size is
read, otherwise the first `numSpaces` entered sizes are scanned. -/
def findParkingSpace (parallel : Bool) (carLength carWidth : ℚ)
    (numSpaces : ℤ) (sizes : List ℚ) : Bool :=
  if numSpaces = 0 then false
  else if numSpaces < 0 then false
  else scanSpaces (requiredSpace parallel carLength carWidth)
    (sizes.take numSpaces.toNat)

/-! ### Helper lemmas -/

lemma closeSides_eq_filter (s : SensorData) :
    closeSides s = [Side.Left, Side.Center, Side.Right].filter
      (fun d => s.dist d < closeMax) := by
  unfold closeSides
  by_cases hL : s.left < closeMax <;> by_cases hM : s.center < closeMax <;>
    by_cases hR : s.right < closeMax <;>
    simp [List.filter, SensorData.dist, hL, hM, hR]

lemma closeSides_ne_nil_iff (s : SensorData) :
    closeSides s ≠ [] ↔
      (s.left < closeMax ∨ s.center < closeMax ∨ s.right < closeMax) := by
  unfold closeSides
  by_cases hL : s.left < closeMax <;> by_cases hM : s.center < closeMax <;>
    by_cases hR : s.right < closeMax <;>
    simp [hL, hM, hR]

lemma checkSafetyE_eq_classify (s : SensorData) :
    checkSafetyE s =
      match classify s with
      | .Collision => Except.error collisionMsg
      | st => Except.ok (renderStatus st) := by
  unfold checkSafetyE classify
  rw [← closeSides_eq_filter]
  by_cases hA : s.left ≤ collisionMax <;> by_cases hB : s.center ≤ collisionMax <;>
    by_cases hC : s.right ≤ collisionMax <;>
    simp only [hA, hB, hC, true_or, or_true, false_or, or_false, if_true, if_false,
      iff_true, iff_false, ite_true, ite_false] <;>
    try rfl
  by_cases hcl : closeSides s ≠ []
  · have hlmr := (closeSides_ne_nil_iff s).mp hcl
    rw [if_pos hcl, if_pos hlmr]
    rfl
  · have hlmr : ¬(s.left < closeMax ∨ s.center < closeMax ∨ s.right < closeMax) :=
      fun h => hcl ((closeSides_ne_nil_iff s).mpr h)
    rw [if_neg hcl, if_neg hlmr]
    by_cases hP : s.left ≥ closeMax ∧ s.left ≤ perfectMax ∧
        s.center ≥ closeMax ∧ s.center ≤ perfectMax ∧
        s.right ≥ closeMax ∧ s.right ≤ perfectMax
    · rw [if_pos hP, if_pos (by tauto)]
      rfl
    · rw [if_neg hP, if_neg (by tauto)]
      rfl

lemma sessionStepE_stopped (reverseMode : Bool) (st : Session) (s : SensorData)
    (h : st.state ≠ .Running) : sessionStepE reverseMode st s = st := by
  unfold sessionStepE
  cases hst : st.state with
  | Running => exact absurd hst h
  | StoppedPerfect => rfl
  | StoppedCollision => rfl

lemma foldl_sessionStepE_stopped (reverseMode : Bool) (st : Session)
    (h : st.state ≠ .Running) :
    ∀ l : List SensorData, List.foldl (sessionStepE reverseMode) st l = st := by
  intro l
  induction l with
  | nil => rfl
  | cons x t ih =>
    rw [List.foldl_cons, sessionStepE_stopped reverseMode st x h, ih]

lemma sessionStepE_append (reverseMode : Bool) (st : Session) (s : SensorData) :
    sessionStepE reverseMode st s = st ∨
      ∃ msg : String,
        (sessionStepE reverseMode st s).history = st.history ++ [s] ∧
        (sessionStepE reverseMode st s).statusHistory = st.statusHistory ++ [msg] := by
  unfold sessionStepE
  cases hst : st.state with
  | StoppedPerfect => exact Or.inl rfl
  | StoppedCollision => exact Or.inl rfl
  | Running =>
    right
    by_cases hopp : s.left < closeMax ∧ s.center < closeMax ∧ s.right < closeMax
    · exact ⟨oppositeMsg reverseMode, by rw [if_pos hopp], by rw [if_pos hopp]⟩
    · rw [if_neg hopp]
      cases hcs : checkSafetyE s with
      | error e => exact ⟨"COLLISION!", rfl, rfl⟩
      | ok status =>
        by_cases hp : containsPerfect status = true
        · exact ⟨status, by simp [hp], by simp [hp]⟩
        · exact ⟨status, by simp [hp], by simp [hp]⟩

/-! ### Claims -/

/-- Claim C1: for every reading with all sensors nonnegative and any of
the three values at or below 0.1, the classification reports a collision
(the spec's `classify` returns `Collision`; the C++ `checkSafety` throws
the collision exception), regardless of the other two sensors' values:
the collision check is evaluated first and dominates every other case. -/
theorem claim_C1 (s : SensorData)
    (hl : 0 ≤ s.left) (hc : 0 ≤ s.center) (hr : 0 ≤ s.right)
    (h : s.left ≤ collisionMax ∨ s.center ≤ collisionMax ∨ s.right ≤ collisionMax) :
    classify s = .Collision ∧ checkSafetyE s = .error collisionMsg := by
  constructor
  · unfold classify
    rw [if_pos h]
  · unfold checkSafetyE
    rw [if_pos (by tauto)]

/-- Concrete instance of C1 at reading (0.05, 0.4, 0.4): the center and
right sensors lie in the perfect band [0.3, 0.5], yet the left sensor
forces a collision. -/
theorem claim_C1_witness :
    (0 ≤ (mkRat 1 20 : ℚ) ∧ 0 ≤ (mkRat 2 5 : ℚ) ∧
      (mkRat 1 20 : ℚ) ≤ collisionMax) ∧
    classify ⟨mkRat 1 20, mkRat 2 5, mkRat 2 5⟩ = .Collision ∧
    checkSafetyE ⟨mkRat 1 20, mkRat 2 5, mkRat 2 5⟩ = .error collisionMsg :=
  ⟨⟨by decide, by decide, by decide⟩,
    claim_C1 ⟨mkRat 1 20, mkRat 2 5, mkRat 2 5⟩ (by decide) (by decide) (by decide)
      (Or.inl (by decide))⟩

/-- Claim C4: for every reading with no sensor at or below 0.1 but at
least one below 0.3, the classification reports TooClose naming exactly
the set of sides whose own value is below 0.3, each side tested
independently, listed in the fixed order Left, Center, Right; the C++
`checkSafety` returns the corresponding side-labelled string. -/
theorem claim_C4 (s : SensorData)
    (hno : ¬(s.left ≤ collisionMax ∨ s.center ≤ collisionMax ∨ s.right ≤ collisionMax))
    (hsome : s.left < closeMax ∨ s.center < closeMax ∨ s.right < closeMax) :
    classify s = .TooClose ([Side.Left, Side.Center, Side.Right].filter
        (fun d => s.dist d < closeMax)) ∧
    (∀ d : Side, d ∈ [Side.Left, Side.Center, Side.Right].filter
        (fun d => s.dist d < closeMax) ↔ s.dist d < closeMax) ∧
    checkSafetyE s = .ok ("TOO CLOSE ⚠️ (" ++
      sideListString ([Side.Left, Side.Center, Side.Right].filter
        (fun d => s.dist d < closeMax)) ++ ")") := by
  refine ⟨?_, ?_, ?_⟩
  · unfold classify
    rw [if_neg hno, if_pos hsome]
  · intro d
    simp only [List.mem_filter, decide_eq_true_eq]
    cases d <;> simp
  · unfold checkSafetyE
    rw [if_neg (by tauto), if_pos ((closeSides_ne_nil_iff s).mpr hsome),
      closeSides_eq_filter]

/-- Concrete instance of C4 at reading (0.2, 0.4, 0.25): left and right
are below 0.3, center is not, so the sides LEFT and RIGHT are named in
that order. -/
theorem claim_C4_witness :
    classify ⟨mkRat 1 5, mkRat 2 5, mkRat 1 4⟩ = .TooClose [Side.Left, Side.Right] ∧
    checkSafetyE ⟨mkRat 1 5, mkRat 2 5, mkRat 1 4⟩ =
      .ok ("TOO CLOSE ⚠️ (LEFT + RIGHT)") :=
  ⟨((claim_C4 ⟨mkRat 1 5, mkRat 2 5, mkRat 1 4⟩ (by decide) (by decide)).1).trans
      (by decide),
   ((claim_C4 ⟨mkRat 1 5, mkRat 2 5, mkRat 1 4⟩ (by decide) (by decide)).2.2).trans
      (by decide)⟩

/-- Claim C5: every reading with all three sensors inside the closed
interval [0.3, 0.5] is classified PerfectlyParked; both endpoints are
inclusive. -/
theorem claim_C5 (s : SensorData)
    (hl1 : s.left ≥ closeMax) (hl2 : s.left ≤ perfectMax)
    (hc1 : s.center ≥ closeMax) (hc2 : s.center ≤ perfectMax)
    (hr1 : s.right ≥ closeMax) (hr2 : s.right ≤ perfectMax) :
    classify s = .PerfectlyParked ∧ checkSafetyE s = .ok ("Perfectly Parked ✅") := by
  have hcc : collisionMax < closeMax := by decide
  have hA : ¬ s.left ≤ collisionMax := fun h => absurd (hl1.trans h) (not_le.mpr hcc)
  have hB : ¬ s.center ≤ collisionMax := fun h => absurd (hc1.trans h) (not_le.mpr hcc)
  have hC : ¬ s.right ≤ collisionMax := fun h => absurd (hr1.trans h) (not_le.mpr hcc)
  have hL : ¬ s.left < closeMax := not_lt.mpr hl1
  have hM : ¬ s.center < closeMax := not_lt.mpr hc1
  have hR : ¬ s.right < closeMax := not_lt.mpr hr1
  have hnil : closeSides s = [] := by
    unfold closeSides
    rw [if_neg hL, if_neg hM, if_neg hR]
    rfl
  constructor
  · unfold classify
    rw [if_neg (by tauto), if_neg (by tauto),
      if_pos ⟨hl1, hl2, hc1, hc2, hr1, hr2⟩]
  · unfold checkSafetyE
    rw [if_neg (by tauto), if_neg (by simp [hnil]),
      if_pos ⟨hc1, hc2, hl1, hl2, hr1, hr2⟩]

/-- Concrete instance of C5 at the boundary reading (0.3, 0.5, 0.4):
both endpoints of [0.3, 0.5] are accepted. -/
theorem claim_C5_witness :
    ((mkRat 3 10 : ℚ) ≥ closeMax ∧ (mkRat 1 2 : ℚ) ≤ perfectMax) ∧
    classify ⟨mkRat 3 10, mkRat 1 2, mkRat 2 5⟩ = .PerfectlyParked ∧
    checkSafetyE ⟨mkRat 3 10, mkRat 1 2, mkRat 2 5⟩ = .ok ("Perfectly Parked ✅") :=
  ⟨⟨by decide, by decide⟩,
    claim_C5 ⟨mkRat 3 10, mkRat 1 2, mkRat 2 5⟩ (by decide) (by decide) (by decide)
      (by decide) (by decide) (by decide)⟩

/-- Claim C6: a reading matching none of the Collision, TooClose or
PerfectlyParked conditions is classified Safe; one sensor alone in the
perfect band does not make the reading PerfectlyParked. -/
theorem claim_C6 (s : SensorData)
    (hno : ¬(s.left ≤ collisionMax ∨ s.center ≤ collisionMax ∨ s.right ≤ collisionMax))
    (hnc : ¬(s.left < closeMax ∨ s.center < closeMax ∨ s.right < closeMax))
    (hnp : ¬(s.left ≥ closeMax ∧ s.left ≤ perfectMax ∧
             s.center ≥ closeMax ∧ s.center ≤ perfectMax ∧
             s.right ≥ closeMax ∧ s.right ≤ perfectMax)) :
    classify s = .Safe ∧ checkSafetyE s = .ok ("SAFE") := by
  have hnil : closeSides s = [] := by
    unfold closeSides
    rw [if_neg (fun h => hnc (Or.inl h)), if_neg (fun h => hnc (Or.inr (Or.inl h))),
      if_neg (fun h => hnc (Or.inr (Or.inr h)))]
    rfl
  constructor
  · unfold classify
    rw [if_neg hno, if_neg hnc, if_neg hnp]
  · unfold checkSafetyE
    rw [if_neg (by tauto), if_neg (by simp [hnil]), if_neg (by tauto)]

/-- Concrete instance of C6 at reading (0.8, 0.3, 0.9): the center sensor
alone lies in the perfect band, and the reading is Safe. -/
theorem claim_C6_witness :
    classify ⟨mkRat 4 5, mkRat 3 10, mkRat 9 10⟩ = .Safe ∧
    checkSafetyE ⟨mkRat 4 5, mkRat 3 10, mkRat 9 10⟩ = .ok ("SAFE") :=
  claim_C6 ⟨mkRat 4 5, mkRat 3 10, mkRat 9 10⟩ (by decide) (by decide) (by decide)

lemma classify_tooClose_inv (s : SensorData) (l : List Side)
    (h : classify s = .TooClose l) :
    l = [Side.Left, Side.Center, Side.Right].filter
      (fun d => s.dist d < closeMax) := by
  unfold classify at h
  split_ifs at h <;> simp_all

lemma containsPerfect_filter (s : SensorData) :
    containsPerfect (renderStatus (.TooClose
      ([Side.Left, Side.Center, Side.Right].filter
        (fun d => s.dist d < closeMax)))) = false := by
  by_cases hL : s.left < closeMax <;> by_cases hM : s.center < closeMax <;>
    by_cases hR : s.right < closeMax <;>
    simp [List.filter, SensorData.dist, hL, hM, hR, renderStatus] <;> decide

/-- Claim C2: the classification consumed by the session is total data:
`checkSafety`'s result corresponds exactly to the status value of the
spec's `classify` (its thrown exception is precisely the `Collision`
variant), and one loop iteration handling the exception behaves
identically to the spec's transition function that consumes the status as
an ordinary return value. -/
theorem claim_C2 :
    (∀ s : SensorData, checkSafetyE s =
        match classify s with
        | .Collision => Except.error collisionMsg
        | st => Except.ok (renderStatus st)) ∧
    (∀ (reverseMode : Bool) (st : Session) (s : SensorData),
        sessionStepE reverseMode st s = sessionStep reverseMode st s) := by
  refine ⟨checkSafetyE_eq_classify, ?_⟩
  intro rm st s
  unfold sessionStepE sessionStep
  cases hst : st.state with
  | StoppedPerfect => rfl
  | StoppedCollision => rfl
  | Running =>
    by_cases hopp : s.left < closeMax ∧ s.center < closeMax ∧ s.right < closeMax
    · rw [if_pos hopp, if_pos hopp]
    · rw [if_neg hopp, if_neg hopp, checkSafetyE_eq_classify s]
      cases hcl : classify s with
      | Collision => rfl
      | PerfectlyParked => rfl
      | Safe => rfl
      | TooClose l =>
        obtain rfl := classify_tooClose_inv s l hcl
        have hfalse := containsPerfect_filter s
        simp only [hfalse, Bool.false_eq_true, if_false]
        rfl

/-- Claim C3: while the session is running, a reading with all three
distances below 0.3 is recorded with the synthetic opposite-movement
status, appended to history, and the session stays `Running`: the
classifier is never consulted and its own result for those values is
suppressed entirely. -/
theorem claim_C3 (reverseMode : Bool) (st : Session) (s : SensorData)
    (hrun : st.state = .Running)
    (hl : s.left < closeMax) (hc : s.center < closeMax) (hr : s.right < closeMax) :
    sessionStepE reverseMode st s =
      { st with history := st.history ++ [s],
                statusHistory := st.statusHistory ++ [oppositeMsg reverseMode] } ∧
    (sessionStepE reverseMode st s).state = .Running := by
  have h1 : sessionStepE reverseMode st s =
      { st with history := st.history ++ [s],
                statusHistory := st.statusHistory ++ [oppositeMsg reverseMode] } := by
    unfold sessionStepE
    rw [hrun]
    exact if_pos ⟨hl, hc, hr⟩
  exact ⟨h1, by rw [h1]; exact hrun⟩

/-- Concrete instance of C3 at reading (0.2, 0.2, 0.2) in a freshly
started session: the classifier's own TooClose verdict for those values
is suppressed and the session keeps running. -/
theorem claim_C3_witness :
    initialSession.state = .Running ∧
    ((mkRat 1 5 : ℚ) < closeMax) ∧
    (sessionStepE false initialSession ⟨mkRat 1 5, mkRat 1 5, mkRat 1 5⟩ =
      { initialSession with
          history := initialSession.history ++ [⟨mkRat 1 5, mkRat 1 5, mkRat 1 5⟩],
          statusHistory := initialSession.statusHistory ++ [oppositeMsg false] } ∧
    (sessionStepE false initialSession ⟨mkRat 1 5, mkRat 1 5, mkRat 1 5⟩).state =
      .Running) :=
  ⟨rfl, by decide,
    claim_C3 false initialSession ⟨mkRat 1 5, mkRat 1 5, mkRat 1 5⟩ rfl (by decide)
      (by decide) (by decide)⟩

/-- Claim C7: a running session whose first reading is (0.4, 0.4, 0.4)
immediately stops as `StoppedPerfect` with exactly that reading and its
status in history, and a running session whose first reading is
(0.05, 0.5, 0.5) immediately stops as `StoppedCollision` likewise;
in both cases any further supplied readings are not accepted. -/
theorem claim_C7 (reverseMode : Bool) (rest : List SensorData) :
    ((runSession reverseMode (⟨mkRat 2 5, mkRat 2 5, mkRat 2 5⟩ :: rest)).state =
        .StoppedPerfect ∧
      (runSession reverseMode (⟨mkRat 2 5, mkRat 2 5, mkRat 2 5⟩ :: rest)).history =
        [⟨mkRat 2 5, mkRat 2 5, mkRat 2 5⟩] ∧
      (runSession reverseMode
          (⟨mkRat 2 5, mkRat 2 5, mkRat 2 5⟩ :: rest)).statusHistory =
        ["Perfectly Parked ✅"]) ∧
    ((runSession reverseMode (⟨mkRat 1 20, mkRat 1 2, mkRat 1 2⟩ :: rest)).state =
        .StoppedCollision ∧
      (runSession reverseMode (⟨mkRat 1 20, mkRat 1 2, mkRat 1 2⟩ :: rest)).history =
        [⟨mkRat 1 20, mkRat 1 2, mkRat 1 2⟩] ∧
      (runSession reverseMode
          (⟨mkRat 1 20, mkRat 1 2, mkRat 1 2⟩ :: rest)).statusHistory =
        ["COLLISION!"]) := by
  have hp : sessionStepE reverseMode initialSession ⟨mkRat 2 5, mkRat 2 5, mkRat 2 5⟩ =
      { state := .StoppedPerfect, history := [⟨mkRat 2 5, mkRat 2 5, mkRat 2 5⟩],
        statusHistory := ["Perfectly Parked ✅"], collisionOccurred := false } := by
    cases reverseMode <;> decide
  have hc : sessionStepE reverseMode initialSession ⟨mkRat 1 20, mkRat 1 2, mkRat 1 2⟩ =
      { state := .StoppedCollision, history := [⟨mkRat 1 20, mkRat 1 2, mkRat 1 2⟩],
        statusHistory := ["COLLISION!"], collisionOccurred := true } := by
    cases reverseMode <;> decide
  have h1 : runSession reverseMode (⟨mkRat 2 5, mkRat 2 5, mkRat 2 5⟩ :: rest) =
      { state := .StoppedPerfect, history := [⟨mkRat 2 5, mkRat 2 5, mkRat 2 5⟩],
        statusHistory := ["Perfectly Parked ✅"], collisionOccurred := false } := by
    unfold runSession
    rw [List.foldl_cons, hp]
    exact foldl_sessionStepE_stopped reverseMode _ (by simp) rest
  have h2 : runSession reverseMode (⟨mkRat 1 20, mkRat 1 2, mkRat 1 2⟩ :: rest) =
      { state := .StoppedCollision, history := [⟨mkRat 1 20, mkRat 1 2, mkRat 1 2⟩],
        statusHistory := ["COLLISION!"], collisionOccurred := true } := by
    unfold runSession
    rw [List.foldl_cons, hc]
    exact foldl_sessionStepE_stopped reverseMode _ (by simp) rest
  rw [h1, h2]
  exact ⟨⟨rfl, rfl, rfl⟩, ⟨rfl, rfl, rfl⟩⟩

/-- Sanity: the modelled collision threshold is exactly 0.1. -/
lemma collisionMax_eq : collisionMax = (1 : ℚ)/10 := by
  norm_num [collisionMax, Rat.mkRat_eq_divInt, Rat.divInt_eq_div]

/-- Sanity: the modelled proximity threshold is exactly 0.3. -/
lemma closeMax_eq : closeMax = (3 : ℚ)/10 := by
  norm_num [closeMax, Rat.mkRat_eq_divInt, Rat.divInt_eq_div]

/-- Sanity: the modelled perfect-band upper bound is exactly 0.5. -/
lemma perfectMax_eq : perfectMax = (5 : ℚ)/10 := by
  norm_num [perfectMax, Rat.mkRat_eq_divInt, Rat.divInt_eq_div]

/-- Claim C8: the space scan is first-fit: it returns true at the first
candidate at least as large as the requirement, whatever comes after;
it returns false when the candidates are exhausted (in particular on an
empty sequence); and a zero or negative candidate count yields false
rather than an error. -/
theorem claim_C8 :
    (∀ (required x : ℚ) (pre post : List ℚ),
        (∀ y ∈ pre, y < required) → required ≤ x →
        scanSpaces required (pre ++ x :: post) = true) ∧
    (∀ (required : ℚ) (sizes : List ℚ),
        (∀ y ∈ sizes, y < required) → scanSpaces required sizes = false) ∧
    (∀ (parallel : Bool) (carLength carWidth : ℚ) (sizes : List ℚ),
        findParkingSpace parallel carLength carWidth 0 sizes = false) ∧
    (∀ (parallel : Bool) (carLength carWidth : ℚ) (n : ℤ) (sizes : List ℚ),
        n < 0 → findParkingSpace parallel carLength carWidth n sizes = false) := by
  refine ⟨?_, ?_, ?_, ?_⟩
  · intro required x pre post hpre hx
    induction pre with
    | nil =>
      rw [List.nil_append]
      simp only [scanSpaces]
      rw [if_pos hx]
    | cons y t ih =>
      have hy : ¬ y ≥ required := not_le.mpr (hpre y (List.mem_cons_self y t))
      rw [List.cons_append]
      simp only [scanSpaces]
      rw [if_neg hy]
      exact ih (fun z hz => hpre z (List.mem_cons_of_mem y hz))
  · intro required sizes h
    induction sizes with
    | nil => rfl
    | cons y t ih =>
      have hy : ¬ y ≥ required := not_le.mpr (h y (List.mem_cons_self y t))
      simp only [scanSpaces]
      rw [if_neg hy]
      exact ih (fun z hz => h z (List.mem_cons_of_mem y hz))
  · intro parallel carLength carWidth sizes
    rfl
  · intro parallel carLength carWidth n sizes hn
    have h0 : ¬ n = 0 := by omega
    unfold findParkingSpace
    rw [if_neg h0, if_pos hn]

/-- Concrete instances of C8: the spec's examples with required space
5.5 — candidates [6, 4, 5.5] succeed, [4, 5] and [] fail — and the
guarded zero and negative counts. -/
theorem claim_C8_witness :
    scanSpaces (mkRat 11 2) [6, 4, mkRat 11 2] = true ∧
    scanSpaces (mkRat 11 2) [4, 5] = false ∧
    scanSpaces (mkRat 11 2) [] = false ∧
    findParkingSpace true (mkRat 9 2) (mkRat 9 5) 0 [6] = false ∧
    findParkingSpace true (mkRat 9 2) (mkRat 9 5) (-3) [6] = false :=
  ⟨claim_C8.1 (mkRat 11 2) 6 [] [4, mkRat 11 2] (by decide) (by decide),
   claim_C8.2.1 (mkRat 11 2) [4, 5] (by decide),
   claim_C8.2.1 (mkRat 11 2) [] (by decide),
   claim_C8.2.2.1 true (mkRat 9 2) (mkRat 9 5) [6],
   claim_C8.2.2.2 true (mkRat 9 2) (mkRat 9 5) (-3) [6] (by decide)⟩

/-- Claim C9: for positive car dimensions, the required space is the car
length plus 1.0 m for parallel parking and the car width plus 0.5 m for
perpendicular parking. -/
theorem claim_C9 (carLength carWidth : ℚ)
    (hl : 0 < carLength) (hw : 0 < carWidth) :
    requiredSpace true carLength carWidth = carLength + 1 ∧
    requiredSpace false carLength carWidth = carWidth + mkRat 1 2 :=
  ⟨rfl, rfl⟩

/-- Concrete instance of C9 at carLength 4.5 and carWidth 1.8: the
required spaces are 5.5 and 2.3. -/
theorem claim_C9_witness :
    0 < (mkRat 9 2 : ℚ) ∧ 0 < (mkRat 9 5 : ℚ) ∧
    requiredSpace true (mkRat 9 2) (mkRat 9 5) = mkRat 11 2 ∧
    requiredSpace false (mkRat 9 2) (mkRat 9 5) = mkRat 23 10 :=
  ⟨by decide, by decide,
    (claim_C9 (mkRat 9 2) (mkRat 9 5) (by decide) (by decide)).1.trans
      (by with_unfolding_all rfl),
    (claim_C9 (mkRat 9 2) (mkRat 9 5) (by decide) (by decide)).2.trans
      (by with_unfolding_all rfl)⟩

lemma sessionStepE_length (reverseMode : Bool) (st : Session) (s : SensorData)
    (h : st.history.length = st.statusHistory.length) :
    (sessionStepE reverseMode st s).history.length =
      (sessionStepE reverseMode st s).statusHistory.length := by
  rcases sessionStepE_append reverseMode st s with heq | ⟨msg, h1, h2⟩
  · rw [heq]
    exact h
  · rw [h1, h2]
    simp [h]

lemma foldl_sessionStepE_length (reverseMode : Bool) :
    ∀ (l : List SensorData) (st : Session),
      st.history.length = st.statusHistory.length →
      (List.foldl (sessionStepE reverseMode) st l).history.length =
        (List.foldl (sessionStepE reverseMode) st l).statusHistory.length := by
  intro l
  induction l with
  | nil => intro st h; exact h
  | cons x t ih =>
    intro st h
    rw [List.foldl_cons]
    exact ih _ (sessionStepE_length reverseMode st x h)

/-- Claim C10: throughout a session the reading history and the status
history have equal length, and a step either leaves both untouched
(stopped session) or appends exactly one matched pair: the accepted
reading together with the status recorded for it. Nothing is modified or
removed once appended, so the summary pairs the i-th reading with the
status computed for it. -/
theorem claim_C10 :
    (∀ (reverseMode : Bool) (readings : List SensorData),
        (runSession reverseMode readings).history.length =
          (runSession reverseMode readings).statusHistory.length) ∧
    (∀ (reverseMode : Bool) (st : Session) (s : SensorData),
        sessionStepE reverseMode st s = st ∨
          ∃ msg : String,
            (sessionStepE reverseMode st s).history = st.history ++ [s] ∧
            (sessionStepE reverseMode st s).statusHistory =
              st.statusHistory ++ [msg]) := by
  refine ⟨?_, sessionStepE_append⟩
  intro reverseMode readings
  exact foldl_sessionStepE_length reverseMode readings initialSession rfl
